import Mathlib

/-!
Shallow embedding of the component codec and row-packing engine of this
repository (`disnake/components.py`, `disnake/ui/action_row.py`,
`disnake/ui/button.py`, `disnake/ui/item.py`).

Conventions:
* Python dicts with `NotRequired` keys (see `disnake/types/components.py`)
  become structures whose optional keys are `Option` fields; `none` models
  key absence.
* Enum members (`ButtonStyle`, `TextInputStyle`, `ChannelType`,
  `ComponentType`) are carried as their integer `.value`; `try_enum`
  composed with `.value` is the identity on these integers, so enum
  round-trips are value-preserving.
* Fallible Python code (KeyError on a missing required dict key, the
  unknown-component-tag failure) becomes `Except DecodeErr`.
-/

deriving instance DecidableEq for Except

/-- Modelled from the spec: the emoji reference value type
(`disnake/partial_emoji.py` is not part of the shown source).  The spec
treats emoji as opaque value objects with paired `toWire`/`fromWire`,
so the wire form of an emoji is taken to be the emoji value itself and
`to_dict`/`from_dict` are mutually inverse. -/
structure PartialEmoji where
  name : String
  id : Option Nat := none
  animated : Bool := false
deriving DecidableEq

/-- Modelled from the spec: `PartialEmoji.to_dict` (opaque `toWire`). -/
def PartialEmoji.to_dict (e : PartialEmoji) : PartialEmoji := e

/-- Modelled from the spec: `PartialEmoji.from_dict` (opaque `fromWire`). -/
def PartialEmoji.from_dict (e : PartialEmoji) : PartialEmoji := e

/-- Decode-time failures of the codec.  `keyError k` models Python's
`KeyError` on a required dict key `k`; `unknownComponentType` models the
unconditional exhaustiveness failure in `_component_factory`'s `else`
branch; `nestedActionRow` marks a wire action row nested inside another
one, which the declared payload types (`ActionRowPayload` holds only
non-row `ConstrainedComponentPayloadT` children) rule out, so the
embedding keeps the wire tree stratified at one nesting level. -/
inductive DecodeErr where
  | keyError (key : String)
  | unknownComponentType (tag : Nat)
  | nestedActionRow
deriving DecidableEq

/-- Embeds `payload["k"]`: a required dict access, raising `KeyError` if absent. -/
def reqField (o : Option α) (key : String) : Except DecodeErr α :=
  match o with
  | some v => .ok v
  | none => .error (.keyError key)

/-- Models the encoding idiom `if self.x: payload["x"] = self.x` for an
optional string attribute: a `None` or empty (falsy) string is omitted. -/
def omitFalsyStr (o : Option String) : Option String :=
  match o with
  | some s => if s = "" then none else some s
  | none => none

/-- Models `if self.channel_types: payload["channel_types"] = ...`:
a `None` or empty (falsy) list is omitted. -/
def omitFalsyList (o : Option (List Nat)) : Option (List Nat) :=
  match o with
  | some l => if l = [] then none else some l
  | none => none

/-- Wire shape of `SelectOptionPayload` (`disnake/types/components.py`):
all keys as `Option` so that decoding can model `KeyError` on the
required `label`/`value` keys. -/
structure SelectOptionPayload where
  label : Option String := none
  value : Option String := none
  description : Option String := none
  emoji : Option PartialEmoji := none
  default : Option Bool := none
deriving DecidableEq

/-- Wire shape of a single non-row component payload: the union of the
keys of `ButtonPayload`, `UrlButtonPayload`, the select-menu payloads and
`TextInputPayload` (`disnake/types/components.py`), each key optional. -/
structure LeafPayload where
  type : Nat
  style : Option Nat := none
  custom_id : Option String := none
  url : Option String := none
  disabled : Option Bool := none
  label : Option String := none
  emoji : Option PartialEmoji := none
  placeholder : Option String := none
  min_values : Option Nat := none
  max_values : Option Nat := none
  options : Option (List SelectOptionPayload) := none
  channel_types : Option (List Nat) := none
  required : Option Bool := none
  value : Option String := none
  min_length : Option Nat := none
  max_length : Option Nat := none
deriving DecidableEq

/-- A full wire object: a leaf payload possibly extended with the
`components` key of `ActionRowPayload`, whose children are non-row
payloads as declared by `ActionRowPayload[ConstrainedComponentPayloadT]`. -/
structure WirePayload extends LeafPayload where
  components : Option (List LeafPayload) := none
deriving DecidableEq

/-- In-memory `Button` (`disnake/components.py` lines 294-372). -/
structure Button where
  style : Nat
  custom_id : String
  disabled : Bool := false
  label : Option String := none
  emoji : Option PartialEmoji := none
deriving DecidableEq

/-- In-memory `UrlButton` (`disnake/components.py` lines 219-291). -/
structure UrlButton where
  url : String
  disabled : Bool := false
  label : Option String := none
  emoji : Option PartialEmoji := none
deriving DecidableEq

/-- In-memory `SelectOption` (`disnake/components.py` lines 680-781). -/
structure SelectOption where
  label : String
  value : String
  description : Option String := none
  emoji : Option PartialEmoji := none
  default : Bool := false
deriving DecidableEq

/-- In-memory `BaseSelectMenu` (`disnake/components.py` lines 375-455);
also the whole state of `UserSelectMenu`, `RoleSelectMenu` and
`MentionableSelectMenu`, which add no fields. -/
structure BaseSelectMenu where
  custom_id : String
  placeholder : Option String := none
  min_values : Nat := 1
  max_values : Nat := 1
  disabled : Bool := false
deriving DecidableEq

/-- In-memory `StringSelectMenu` (`disnake/components.py` lines 458-519). -/
structure StringSelectMenu extends BaseSelectMenu where
  options : List SelectOption := []
deriving DecidableEq

/-- In-memory `ChannelSelectMenu` (`disnake/components.py` lines 615-677). -/
structure ChannelSelectMenu extends BaseSelectMenu where
  channel_types : Option (List Nat) := none
deriving DecidableEq

/-- In-memory `TextInput` (`disnake/components.py` lines 784-880). -/
structure TextInput where
  custom_id : String
  style : Nat := 1
  label : String
  placeholder : Option String := none
  value : Option String := none
  required : Bool := true
  min_length : Option Nat := none
  max_length : Option Nat := none
deriving DecidableEq

/-- The non-row component variants, the closed set dispatched over by
`_component_factory` for tags 2-8. -/
inductive LeafComponent where
  | button (b : Button)
  | urlButton (b : UrlButton)
  | stringSelect (s : StringSelectMenu)
  | textInput (t : TextInput)
  | userSelect (s : BaseSelectMenu)
  | roleSelect (s : BaseSelectMenu)
  | mentionableSelect (s : BaseSelectMenu)
  | channelSelect (s : ChannelSelectMenu)
deriving DecidableEq

/-- A decoded component: a leaf variant or an `ActionRow` whose children
are the non-row components declared by its payload type. -/
inductive Component where
  | leaf (c : LeafComponent)
  | actionRow (children : List LeafComponent)
deriving DecidableEq

/-- Embeds `Button.to_dict` (`disnake/components.py` lines 343-357): emits
`type`, `style`, `custom_id`, `disabled` unconditionally; `label` and
`emoji` only when truthy. -/
def Button.to_dict (b : Button) : LeafPayload :=
  { type := 2
    style := some b.style
    custom_id := some b.custom_id
    disabled := some b.disabled
    label := omitFalsyStr b.label
    emoji := b.emoji.map PartialEmoji.to_dict }

/-- Embeds `Button.from_payload` (`disnake/components.py` lines 359-372):
`style` and `custom_id` are required keys; `disabled` defaults to
`False`; `emoji` is decoded when present (`try`/`except KeyError`). -/
def Button.from_payload (payload : LeafPayload) : Except DecodeErr Button := do
  let style ← reqField payload.style "style"
  let custom_id ← reqField payload.custom_id "custom_id"
  return { style := style
           custom_id := custom_id
           disabled := payload.disabled.getD false
           label := payload.label
           emoji := payload.emoji.map PartialEmoji.from_dict }

/-- Embeds `UrlButton.to_dict` (`disnake/components.py` lines 263-277): emits
`type := 2`, `style := ButtonStyle.url.value = 5`, `url`, `disabled`
unconditionally; `label`/`emoji` only when truthy. -/
def UrlButton.to_dict (b : UrlButton) : LeafPayload :=
  { type := 2
    style := some 5
    url := some b.url
    disabled := some b.disabled
    label := omitFalsyStr b.label
    emoji := b.emoji.map PartialEmoji.to_dict }

/-- Embeds `UrlButton.from_payload` (`disnake/components.py` lines 279-291). -/
def UrlButton.from_payload (payload : LeafPayload) : Except DecodeErr UrlButton := do
  let url ← reqField payload.url "url"
  return { url := url
           disabled := payload.disabled.getD false
           label := payload.label
           emoji := payload.emoji.map PartialEmoji.from_dict }

/-- Embeds `SelectOption.to_dict` (`disnake/components.py` lines 768-781):
emits `label`, `value`, `default` unconditionally; `emoji` when truthy
(any non-`None` emoji object) and `description` when truthy. -/
def SelectOption.to_dict (o : SelectOption) : SelectOptionPayload :=
  { label := some o.label
    value := some o.value
    default := some o.default
    emoji := o.emoji.map PartialEmoji.to_dict
    description := omitFalsyStr o.description }

/-- Embeds `SelectOption.from_dict` (`disnake/components.py` lines 753-766):
`label` and `value` are required keys; `default` defaults to `False`.
The constructor call normalizes the already-partial emoji to itself. -/
def SelectOption.from_dict (data : SelectOptionPayload) : Except DecodeErr SelectOption := do
  let label ← reqField data.label "label"
  let value ← reqField data.value "value"
  return { label := label
           value := value
           description := data.description
           emoji := data.emoji.map PartialEmoji.from_dict
           default := data.default.getD false }

/-- Embeds `BaseSelectMenu.to_dict` (`disnake/components.py` lines 433-445)
parameterized by `self.type.value`, which each subclass fixes (3, 5, 6,
7 or 8): emits `custom_id`, `min_values`, `max_values`, `disabled`
unconditionally; `placeholder` only when truthy. -/
def BaseSelectMenu.to_dict (s : BaseSelectMenu) (type_value : Nat) : LeafPayload :=
  { type := type_value
    custom_id := some s.custom_id
    min_values := some s.min_values
    max_values := some s.max_values
    disabled := some s.disabled
    placeholder := omitFalsyStr s.placeholder }

/-- Embeds `BaseSelectMenu.from_payload` (`disnake/components.py` lines
447-455): `custom_id` is required; `min_values`/`max_values` default to
1, `disabled` to `False`. -/
def BaseSelectMenu.from_payload (payload : LeafPayload) : Except DecodeErr BaseSelectMenu := do
  let custom_id ← reqField payload.custom_id "custom_id"
  return { custom_id := custom_id
           placeholder := payload.placeholder
           min_values := payload.min_values.getD 1
           max_values := payload.max_values.getD 1
           disabled := payload.disabled.getD false }

/-- Embeds `StringSelectMenu.to_dict` (`disnake/components.py` lines 507-511):
the base payload with `type` overwritten to 3 and `options` added. -/
def StringSelectMenu.to_dict (s : StringSelectMenu) : LeafPayload :=
  { s.toBaseSelectMenu.to_dict 3 with
    type := 3
    options := some (s.options.map SelectOption.to_dict) }

/-- Embeds `StringSelectMenu.from_payload` (`disnake/components.py` lines
513-519): the base decode plus `options` from `payload.get("options",
[])`, each via `SelectOption.from_dict`. -/
def StringSelectMenu.from_payload (payload : LeafPayload) : Except DecodeErr StringSelectMenu := do
  let base ← BaseSelectMenu.from_payload payload
  let options ← (payload.options.getD []).mapM SelectOption.from_dict
  return { toBaseSelectMenu := base, options := options }

/-- Embeds `ChannelSelectMenu.to_dict` (`disnake/components.py` lines 662-667):
the base payload with `type` overwritten to 8 and `channel_types`
added only when truthy (non-`None` and non-empty). -/
def ChannelSelectMenu.to_dict (s : ChannelSelectMenu) : LeafPayload :=
  { s.toBaseSelectMenu.to_dict 8 with
    type := 8
    channel_types := omitFalsyList s.channel_types }

/-- Embeds `ChannelSelectMenu.from_payload` (`disnake/components.py` lines
669-677): an absent or empty `channel_types` list becomes `None`;
otherwise each tag goes through `try_enum` (identity on values). -/
def ChannelSelectMenu.from_payload (payload : LeafPayload) : Except DecodeErr ChannelSelectMenu := do
  let channel_types := payload.channel_types
  let base ← BaseSelectMenu.from_payload payload
  return { toBaseSelectMenu := base
           channel_types :=
             match channel_types with
             | some l => if l = [] then none else some (l.map (fun t => t))
             | none => none }

/-- Embeds `TextInput.to_dict` (`disnake/components.py` lines 845-866): emits
`type`, `style`, `label`, `custom_id`, `required` unconditionally; the
remaining keys are emitted exactly when the field `is not None`. -/
def TextInput.to_dict (t : TextInput) : LeafPayload :=
  { type := 4
    style := some t.style
    label := some t.label
    custom_id := some t.custom_id
    required := some t.required
    placeholder := t.placeholder
    value := t.value
    min_length := t.min_length
    max_length := t.max_length }

/-- Embeds `TextInput.from_payload` (`disnake/components.py` lines 868-880):
`custom_id` and `label` are required; `style` defaults to
`TextInputStyle.short.value = 1`; `required` defaults to `True`. -/
def TextInput.from_payload (payload : LeafPayload) : Except DecodeErr TextInput := do
  let style := payload.style.getD 1
  let custom_id ← reqField payload.custom_id "custom_id"
  let label ← reqField payload.label "label"
  return { custom_id := custom_id
           style := style
           label := label
           placeholder := payload.placeholder
           value := payload.value
           required := payload.required.getD true
           min_length := payload.min_length
           max_length := payload.max_length }

/-- Embeds `LeafComponent.to_dict`: each variant's own `to_dict`. -/
def LeafComponent.to_dict : LeafComponent → LeafPayload
  | .button b => b.to_dict
  | .urlButton b => b.to_dict
  | .stringSelect s => s.to_dict
  | .textInput t => t.to_dict
  | .userSelect s => s.to_dict 5
  | .roleSelect s => s.to_dict 6
  | .mentionableSelect s => s.to_dict 7
  | .channelSelect s => s.to_dict

/-- The tag dispatch of `_component_factory` (`disnake/components.py`
lines 883-909) restricted to the non-row child payloads of an action
row, as used by `ActionRow.from_payload` on each child.  For tag 2 the
presence of the `url` key selects `UrlButton` over `Button`.  An
unknown tag hits `assert_never`; modelled from the spec: `assert_never`
(from `disnake/utils.py`, not part of the shown source) fires
unconditionally at runtime, so the unknown-tag branch fails instead of
reaching the lenient `Component._raw_construct` fallback. -/
def leafComponentFactory (data : LeafPayload) : Except DecodeErr LeafComponent :=
  if data.type = 1 then .error .nestedActionRow
  else if data.type = 2 then
    if data.url.isSome then
      (UrlButton.from_payload data).map .urlButton
    else
      (Button.from_payload data).map .button
  else if data.type = 3 then (StringSelectMenu.from_payload data).map .stringSelect
  else if data.type = 4 then (TextInput.from_payload data).map .textInput
  else if data.type = 5 then (BaseSelectMenu.from_payload data).map .userSelect
  else if data.type = 6 then (BaseSelectMenu.from_payload data).map .roleSelect
  else if data.type = 7 then (BaseSelectMenu.from_payload data).map .mentionableSelect
  else if data.type = 8 then (ChannelSelectMenu.from_payload data).map .channelSelect
  else .error (.unknownComponentType data.type)

/-- Embeds `ActionRow.from_payload` (`disnake/components.py` lines 211-216):
decodes each entry of `payload.get("components", ())` through the
component factory. -/
def ActionRow.from_payload (payload : WirePayload) : Except DecodeErr (List LeafComponent) :=
  (payload.components.getD []).mapM leafComponentFactory

/-- Embeds `Component.to_dict`: a leaf encodes to its leaf payload with no
`components` key; `ActionRow.to_dict` (`disnake/components.py` lines
205-209) emits `type := 1` and the encoded children. -/
def Component.to_dict : Component → WirePayload
  | .leaf c => { toLeafPayload := c.to_dict }
  | .actionRow children =>
      { toLeafPayload := { type := 1 }
        components := some (children.map LeafComponent.to_dict) }

/-- Embeds `_component_factory` (`disnake/components.py` lines 883-909): reads
the integer `type` tag and dispatches to the matching variant's
decoder; tag 2 disambiguates on the presence of the `url` key; an
unknown tag fails (see `leafComponentFactory` on `assert_never`). -/
def _component_factory (data : WirePayload) : Except DecodeErr Component :=
  if data.type = 1 then
    (ActionRow.from_payload data).map .actionRow
  else
    (leafComponentFactory data.toLeafPayload).map .leaf

/-- A wrapped UI item (`WrappedComponent`, `disnake/ui/item.py`).  The
packing engine only consults an item's `width`; items are otherwise
opaque, so the embedding keeps just an identifying payload. -/
structure Item where
  id : Nat
deriving DecidableEq

/-- Embeds `width` of a wrapped item: the concrete item classes declare a
constant 1 (`ButtonBase.width`, `disnake/ui/button.py` lines 75-77; the
spec fixes width 1 for every current variant). -/
def Item.width (_ : Item) : Nat := 1

/-- The error raised by the packing layer: `ValueError` with the given
message (`disnake/ui/action_row.py` line 228). -/
inductive PackErr where
  | valueError (msg : String)
deriving DecidableEq

/-- The UI-layer `ActionRow` (`disnake/ui/action_row.py` lines 86-849):
its state is the `_children` list. -/
structure UIActionRow where
  _children : List Item := []
deriving DecidableEq

/-- Embeds `ActionRow.width` (`disnake/ui/action_row.py` lines 184-186):
`sum(child.width for child in self._children)`. -/
def UIActionRow.width (r : UIActionRow) : Nat :=
  (r._children.map Item.width).sum

/-- Embeds `ActionRow.insert_item` (`disnake/ui/action_row.py` lines 207-231):
raises `ValueError` if the insertion would push the row's width past 5,
checked before any mutation; otherwise inserts at `index`. -/
def UIActionRow.insert_item (r : UIActionRow) (index : Nat) (item : Item) :
    Except PackErr UIActionRow :=
  if r.width + item.width > 5 then
    .error (.valueError "Too many components in this row, can not append a new one.")
  else
    .ok { _children := r._children.insertIdx index item }

/-- Embeds `ActionRow.append_item` (`disnake/ui/action_row.py` lines 188-205):
`insert_item(len(self), item)`. -/
def UIActionRow.append_item (r : UIActionRow) (item : Item) :
    Except PackErr UIActionRow :=
  r.insert_item r._children.length item

/-- Embeds `ActionRow.__init__(*components)` (`disnake/ui/action_row.py` lines
157-165): starts from an empty `_children` list and `append_item`s each
given component in order, so an over-wide literal group raises. -/
def UIActionRow.ofComponents (components : List Item) : Except PackErr UIActionRow :=
  components.foldlM (fun r item => r.append_item item) {}

/-- One top-level entry of the (already sequence-normalized) input of
`components_to_rows`: a plain wrapped item, a pre-built `ActionRow`, or
a literal sequence of items. -/
inductive Entry where
  | item (i : Item)
  | row (r : UIActionRow)
  | seq (l : List Item)
deriving DecidableEq

/-- The loop of `components_to_rows` (`disnake/ui/action_row.py` lines
859-887), with the running output `action_rows` and the auto-fill row
`auto_row` as explicit state:
* a plain item is appended to the auto row; on `ValueError` the auto
  row is sealed and a fresh `ActionRow(component)` takes its place;
* a pre-built row or literal sequence first seals a non-empty auto row,
  then is passed through unchanged resp. built via `ActionRow(*seq)`
  (whose failure propagates);
* after the loop the auto row is sealed if non-empty. -/
def packLoop (entries : List Entry) (action_rows : List UIActionRow)
    (auto_row : UIActionRow) : Except PackErr (List UIActionRow) :=
  match entries with
  | [] => .ok (if auto_row.width > 0 then action_rows ++ [auto_row] else action_rows)
  | .item c :: rest =>
      match auto_row.append_item c with
      | .ok r => packLoop rest action_rows r
      | .error _ => do
          let fresh ← UIActionRow.ofComponents [c]
          packLoop rest (action_rows ++ [auto_row]) fresh
  | .row r :: rest =>
      if auto_row.width > 0 then
        packLoop rest (action_rows ++ [auto_row] ++ [r]) {}
      else
        packLoop rest (action_rows ++ [r]) auto_row
  | .seq l :: rest => do
      let sealed := if auto_row.width > 0 then action_rows ++ [auto_row] else action_rows
      let fresh := if auto_row.width > 0 then ({} : UIActionRow) else auto_row
      let built ← UIActionRow.ofComponents l
      packLoop rest (sealed ++ [built]) fresh

/-- Embeds `components_to_rows` (`disnake/ui/action_row.py` lines 852-887) on
an input already normalized to a sequence (step 1 of the algorithm
wraps a bare item or row into a one-element list). -/
def components_to_rows (components : List Entry) : Except PackErr (List UIActionRow) :=
  packLoop components [] {}

/-- Flattening of the packed output: the concatenation of all
containers' children, in order. -/
def flattenRows (rows : List UIActionRow) : List Item :=
  (rows.map UIActionRow._children).flatten

/-- Flattening of the input, in order: an item contributes itself, a
pre-built row its children, a literal sequence its items. -/
def flattenInput (entries : List Entry) : List Item :=
  (entries.map fun e =>
    match e with
    | .item i => [i]
    | .row r => r._children
    | .seq l => l).flatten

/-- Python object-identity model for `SelectOption` instances: the class
(`disnake/components.py` lines 680-781) defines no `__eq__`, so CPython's
default `object.__eq__` applies and `a == b` holds exactly when `a` and
`b` are the same heap object.  An instance is a heap object (identified
by `object_id`) holding the field record. -/
structure SelectOptionInstance where
  object_id : Nat
  fields : SelectOption
deriving DecidableEq

/-- Embeds `a == b` between two `SelectOption` instances: with no `__eq__`
defined on the class, Python falls back to identity comparison. -/
def selectOptionPyEq (a b : SelectOptionInstance) : Bool :=
  a.object_id == b.object_id

/-- The `ValueError` message raised by `insert_item`
(`disnake/ui/action_row.py` line 228). -/
def tooManyMsg : String :=
  "Too many components in this row, can not append a new one."

/-- The state of a row after calling `insert_item`: the updated row on
success and the untouched row when the call raises, because in the
source the capacity check precedes the `self._children.insert` mutation
(`disnake/ui/action_row.py` lines 227-230). -/
def UIActionRow.insert_item_run (r : UIActionRow) (index : Nat) (item : Item) :
    UIActionRow :=
  match r.insert_item index item with
  | .ok r2 => r2
  | .error _ => r

/-- A `SelectOption` with no empty-string optional field: its encoder
omits a falsy `description`, so only such values can round-trip. -/
def SelectOption.clean (o : SelectOption) : Prop :=
  o.description ≠ some ""

instance (o : SelectOption) : Decidable o.clean :=
  inferInstanceAs (Decidable (o.description ≠ some ""))

/-- A leaf component with no empty-string optional string field and no
empty `channel_types` list, i.e. none of the values whose falsy fields
the encoders drop. -/
def LeafComponent.clean : LeafComponent → Prop
  | .button b => b.label ≠ some ""
  | .urlButton b => b.label ≠ some ""
  | .stringSelect s => s.placeholder ≠ some "" ∧ ∀ o ∈ s.options, o.clean
  | .textInput _ => True
  | .userSelect s => s.placeholder ≠ some ""
  | .roleSelect s => s.placeholder ≠ some ""
  | .mentionableSelect s => s.placeholder ≠ some ""
  | .channelSelect s => s.placeholder ≠ some "" ∧ s.channel_types ≠ some []

instance : (c : LeafComponent) → Decidable c.clean
  | .button b => inferInstanceAs (Decidable (b.label ≠ some ""))
  | .urlButton b => inferInstanceAs (Decidable (b.label ≠ some ""))
  | .stringSelect s =>
      inferInstanceAs (Decidable (s.placeholder ≠ some "" ∧ ∀ o ∈ s.options, o.clean))
  | .textInput _ => inferInstanceAs (Decidable True)
  | .userSelect s => inferInstanceAs (Decidable (s.placeholder ≠ some ""))
  | .roleSelect s => inferInstanceAs (Decidable (s.placeholder ≠ some ""))
  | .mentionableSelect s => inferInstanceAs (Decidable (s.placeholder ≠ some ""))
  | .channelSelect s =>
      inferInstanceAs (Decidable (s.placeholder ≠ some "" ∧ s.channel_types ≠ some []))

/-- A component all of whose (nested) parts are clean. -/
def Component.clean : Component → Prop
  | .leaf c => c.clean
  | .actionRow children => ∀ c ∈ children, c.clean

instance : (c : Component) → Decidable c.clean
  | .leaf c => inferInstanceAs (Decidable c.clean)
  | .actionRow children => inferInstanceAs (Decidable (∀ c ∈ children, c.clean))


lemma omitFalsyStr_eq_self {o : Option String} (h : o ≠ some "") :
    omitFalsyStr o = o := by
  cases o with
  | none => rfl
  | some s =>
      have hs : s ≠ "" := fun he => h (by rw [he])
      simp [omitFalsyStr, hs]

lemma emoji_map_roundtrip (o : Option PartialEmoji) :
    (o.map PartialEmoji.to_dict).map PartialEmoji.from_dict = o := by
  cases o <;> rfl

lemma emoji_map_comp (o : Option PartialEmoji) :
    o.map (PartialEmoji.from_dict ∘ PartialEmoji.to_dict) = o := by
  cases o <;> rfl

lemma SelectOption.from_to {o : SelectOption} (h : o.clean) :
    SelectOption.from_dict o.to_dict = .ok o := by
  simp [SelectOption.from_dict, SelectOption.to_dict, reqField,
    omitFalsyStr_eq_self h, emoji_map_roundtrip, emoji_map_comp, bind,
    Except.bind, pure, Except.pure]

lemma options_from_to_loop {os : List SelectOption} (h : ∀ o ∈ os, o.clean)
    (acc : List SelectOption) :
    List.mapM.loop SelectOption.from_dict (os.map SelectOption.to_dict) acc
      = .ok (acc.reverse ++ os) := by
  induction os generalizing acc with
  | nil => simp [List.mapM.loop, pure, Except.pure]
  | cons o rest ih =>
      rw [List.map_cons, List.mapM.loop,
        SelectOption.from_to (h o (List.mem_cons_self o rest))]
      show List.mapM.loop SelectOption.from_dict (rest.map SelectOption.to_dict)
        (o :: acc) = _
      rw [ih (fun x hx => h x (List.mem_cons_of_mem o hx))]
      simp

lemma options_from_to {os : List SelectOption} (h : ∀ o ∈ os, o.clean) :
    (os.map SelectOption.to_dict).mapM SelectOption.from_dict = .ok os := by
  rw [show (os.map SelectOption.to_dict).mapM SelectOption.from_dict
      = List.mapM.loop SelectOption.from_dict (os.map SelectOption.to_dict) []
    from rfl]
  rw [options_from_to_loop h]
  rfl

lemma leafComponentFactory_to_dict {c : LeafComponent} (h : c.clean) :
    leafComponentFactory c.to_dict = .ok c := by
  cases c with
  | button b =>
      simp [leafComponentFactory, LeafComponent.to_dict, Button.to_dict,
        Button.from_payload, reqField, omitFalsyStr_eq_self h,
        emoji_map_roundtrip, emoji_map_comp, bind, Except.bind, pure,
        Except.pure, Except.map]
  | urlButton b =>
      simp [leafComponentFactory, LeafComponent.to_dict, UrlButton.to_dict,
        UrlButton.from_payload, reqField, omitFalsyStr_eq_self h,
        emoji_map_roundtrip, emoji_map_comp, bind, Except.bind, pure,
        Except.pure, Except.map]
  | stringSelect s =>
      obtain ⟨hp, ho⟩ := h
      simp [leafComponentFactory, LeafComponent.to_dict, StringSelectMenu.to_dict,
        StringSelectMenu.from_payload, BaseSelectMenu.to_dict,
        BaseSelectMenu.from_payload, reqField, omitFalsyStr_eq_self hp,
        options_from_to ho, options_from_to_loop ho, bind, Except.bind, pure,
        Except.pure, Except.map]
  | textInput t =>
      simp [leafComponentFactory, LeafComponent.to_dict, TextInput.to_dict,
        TextInput.from_payload, reqField, bind, Except.bind, pure, Except.pure,
        Except.map]
  | userSelect s =>
      simp [leafComponentFactory, LeafComponent.to_dict, BaseSelectMenu.to_dict,
        BaseSelectMenu.from_payload, reqField, omitFalsyStr_eq_self h, bind,
        Except.bind, pure, Except.pure, Except.map]
  | roleSelect s =>
      simp [leafComponentFactory, LeafComponent.to_dict, BaseSelectMenu.to_dict,
        BaseSelectMenu.from_payload, reqField, omitFalsyStr_eq_self h, bind,
        Except.bind, pure, Except.pure, Except.map]
  | mentionableSelect s =>
      simp [leafComponentFactory, LeafComponent.to_dict, BaseSelectMenu.to_dict,
        BaseSelectMenu.from_payload, reqField, omitFalsyStr_eq_self h, bind,
        Except.bind, pure, Except.pure, Except.map]
  | channelSelect s =>
      obtain ⟨hp, hc⟩ := h
      obtain ⟨base, ct⟩ := s
      cases ct with
      | none =>
          simp [leafComponentFactory, LeafComponent.to_dict,
            ChannelSelectMenu.to_dict, ChannelSelectMenu.from_payload,
            BaseSelectMenu.to_dict, BaseSelectMenu.from_payload, reqField,
            omitFalsyStr_eq_self hp, omitFalsyList, bind, Except.bind,
            pure, Except.pure, Except.map]
      | some l =>
          have hl : l ≠ [] := fun he => hc (by rw [he])
          simp [leafComponentFactory, LeafComponent.to_dict,
            ChannelSelectMenu.to_dict, ChannelSelectMenu.from_payload,
            BaseSelectMenu.to_dict, BaseSelectMenu.from_payload, reqField,
            omitFalsyStr_eq_self hp, omitFalsyList, hl, bind, Except.bind,
            pure, Except.pure, Except.map]

lemma children_from_to_loop {cs : List LeafComponent} (h : ∀ c ∈ cs, c.clean)
    (acc : List LeafComponent) :
    List.mapM.loop leafComponentFactory (cs.map LeafComponent.to_dict) acc
      = .ok (acc.reverse ++ cs) := by
  induction cs generalizing acc with
  | nil => simp [List.mapM.loop, pure, Except.pure]
  | cons c rest ih =>
      rw [List.map_cons, List.mapM.loop,
        leafComponentFactory_to_dict (h c (List.mem_cons_self c rest))]
      show List.mapM.loop leafComponentFactory (rest.map LeafComponent.to_dict)
        (c :: acc) = _
      rw [ih (fun x hx => h x (List.mem_cons_of_mem c hx))]
      simp

/-- Each leaf variant encodes with its own fixed type tag, never 1. -/
lemma LeafComponent.to_dict_type_ne_one (c : LeafComponent) :
    c.to_dict.type ≠ 1 := by
  cases c <;>
    simp [LeafComponent.to_dict, Button.to_dict, UrlButton.to_dict,
      StringSelectMenu.to_dict, TextInput.to_dict, BaseSelectMenu.to_dict,
      ChannelSelectMenu.to_dict]

/-- Decoding the encoding of any clean component gives it back exactly. -/
lemma component_factory_to_dict {c : Component} (h : c.clean) :
    _component_factory c.to_dict = .ok c := by
  cases c with
  | leaf c =>
      have ht := c.to_dict_type_ne_one
      simp only [_component_factory, Component.to_dict]
      rw [if_neg ht, leafComponentFactory_to_dict h]
      rfl
  | actionRow children =>
      simp [_component_factory, Component.to_dict, ActionRow.from_payload,
        children_from_to_loop h, List.mapM, Except.map]


lemma UIActionRow.width_eq_length (r : UIActionRow) :
    r.width = r._children.length := by
  obtain ⟨l⟩ := r
  induction l with
  | nil => rfl
  | cons i rest ih =>
      simp only [UIActionRow.width, Item.width, List.map_cons, List.sum_cons,
        List.length_cons] at *
      omega

lemma append_item_eq (r : UIActionRow) (i : Item) :
    r.append_item i =
      if r._children.length + 1 > 5 then .error (.valueError tooManyMsg)
      else .ok ⟨r._children ++ [i]⟩ := by
  simp only [UIActionRow.append_item, UIActionRow.insert_item,
    UIActionRow.width_eq_length, Item.width, tooManyMsg,
    List.insertIdx_length_self]

lemma ofComponents_aux (l : List Item) (r : UIActionRow)
    (hr : r._children.length ≤ 5) :
    l.foldlM (fun r item => r.append_item item) r =
      if r._children.length + l.length ≤ 5 then .ok ⟨r._children ++ l⟩
      else .error (.valueError tooManyMsg) := by
  induction l generalizing r with
  | nil => simp [List.foldlM, hr, pure, Except.pure]
  | cons i rest ih =>
      rw [List.foldlM_cons, append_item_eq, List.length_cons]
      by_cases hlen : r._children.length + 1 > 5
      · rw [if_pos hlen, if_neg (by omega)]
        rfl
      · rw [if_neg hlen]
        simp only [bind, Except.bind]
        rw [ih ⟨r._children ++ [i]⟩ (by simp; omega)]
        simp only [List.length_append, List.length_cons, List.length_nil,
          List.append_assoc, List.singleton_append]
        by_cases hc : r._children.length + (rest.length + 1) ≤ 5
        · rw [if_pos (by omega), if_pos (by omega)]
        · rw [if_neg (by omega), if_neg (by omega)]

lemma ofComponents_eq (l : List Item) :
    UIActionRow.ofComponents l =
      if l.length ≤ 5 then .ok ⟨l⟩ else .error (.valueError tooManyMsg) := by
  rw [UIActionRow.ofComponents, ofComponents_aux l {} (by simp)]
  simp

@[simp]
lemma flattenRows_nil : flattenRows [] = [] := rfl

@[simp]
lemma flattenRows_append (a b : List UIActionRow) :
    flattenRows (a ++ b) = flattenRows a ++ flattenRows b := by
  simp [flattenRows]

@[simp]
lemma flattenRows_singleton (r : UIActionRow) :
    flattenRows [r] = r._children := by
  simp [flattenRows]

@[simp]
lemma flattenInput_nil : flattenInput [] = [] := rfl

@[simp]
lemma flattenInput_item_cons (i : Item) (rest : List Entry) :
    flattenInput (.item i :: rest) = i :: flattenInput rest := by
  simp [flattenInput]

@[simp]
lemma flattenInput_row_cons (r : UIActionRow) (rest : List Entry) :
    flattenInput (.row r :: rest) = r._children ++ flattenInput rest := by
  simp [flattenInput]

@[simp]
lemma flattenInput_seq_cons (l : List Item) (rest : List Entry) :
    flattenInput (.seq l :: rest) = l ++ flattenInput rest := by
  simp [flattenInput]

lemma width_zero_children_nil {r : UIActionRow} (h : ¬ r.width > 0) :
    r._children = [] := by
  rw [UIActionRow.width_eq_length] at h
  exact List.eq_nil_of_length_eq_zero (by omega)

/-- The output of the packing loop flattens to the already-emitted rows,
then the running auto row, then the flattening of the remaining input. -/
lemma packLoop_flatten : ∀ (entries : List Entry) (rows : List UIActionRow)
    (auto : UIActionRow) (out : List UIActionRow),
    packLoop entries rows auto = .ok out →
    flattenRows out = flattenRows rows ++ auto._children ++ flattenInput entries := by
  intro entries
  induction entries with
  | nil =>
      intro rows auto out h
      simp only [packLoop] at h
      by_cases hw : auto.width > 0
      · rw [if_pos hw] at h
        cases h
        simp
      · rw [if_neg hw] at h
        cases h
        simp [width_zero_children_nil hw]
  | cons e rest ih =>
      intro rows auto out h
      cases e with
      | item c =>
          simp only [packLoop] at h
          rw [append_item_eq] at h
          by_cases hlen : auto._children.length + 1 > 5
          · rw [if_pos hlen] at h
            rw [ofComponents_eq] at h
            simp only [List.length_cons, List.length_nil, bind, Except.bind,
              if_pos (by omega : (1 : Nat) ≤ 5)] at h
            have := ih (rows ++ [auto]) ⟨[c]⟩ out h
            simp only [flattenRows_append, flattenRows_singleton,
              flattenInput_item_cons] at this ⊢
            rw [this]
            simp
          · rw [if_neg hlen] at h
            have := ih rows ⟨auto._children ++ [c]⟩ out h
            simp only [flattenInput_item_cons] at this ⊢
            rw [this]
            simp
      | row r =>
          simp only [packLoop] at h
          by_cases hw : auto.width > 0
          · rw [if_pos hw] at h
            have := ih (rows ++ [auto] ++ [r]) {} out h
            simp only [flattenRows_append, flattenRows_singleton,
              flattenInput_row_cons] at this ⊢
            rw [this]
            simp [show ({} : UIActionRow)._children = [] from rfl]
          · rw [if_neg hw] at h
            have := ih (rows ++ [r]) auto out h
            simp only [flattenRows_append, flattenRows_singleton,
              flattenInput_row_cons] at this ⊢
            rw [this, width_zero_children_nil hw]
            simp
      | seq l =>
          simp only [packLoop] at h
          rw [ofComponents_eq] at h
          by_cases hl : l.length ≤ 5
          · rw [if_pos hl] at h
            simp only [bind, Except.bind] at h
            by_cases hw : auto.width > 0
            · rw [if_pos hw, if_pos hw] at h
              have := ih (rows ++ [auto] ++ [⟨l⟩]) {} out h
              simp only [flattenRows_append, flattenRows_singleton,
                flattenInput_seq_cons] at this ⊢
              rw [this]
              simp [show ({} : UIActionRow)._children = [] from rfl]
            · rw [if_neg hw, if_neg hw] at h
              have := ih (rows ++ [⟨l⟩]) auto out h
              simp only [flattenRows_append, flattenRows_singleton,
                flattenInput_seq_cons] at this ⊢
              rw [this, width_zero_children_nil hw]
              simp
          · rw [if_neg hl] at h
            simp only [bind, Except.bind] at h
            cases h

/-- Capacity invariant of the packing loop: if every already-emitted row,
the auto row, and every pre-built row still in the input respect width 5,
then so does every row of the output. -/
lemma packLoop_width : ∀ (entries : List Entry) (rows : List UIActionRow)
    (auto : UIActionRow) (out : List UIActionRow),
    (∀ r ∈ rows, r.width ≤ 5) → auto.width ≤ 5 →
    (∀ r, Entry.row r ∈ entries → r.width ≤ 5) →
    packLoop entries rows auto = .ok out → ∀ r ∈ out, r.width ≤ 5 := by
  intro entries
  induction entries with
  | nil =>
      intro rows auto out hrows hauto _ h
      simp only [packLoop] at h
      by_cases hw : auto.width > 0
      · rw [if_pos hw] at h
        cases h
        intro r hr
        rcases List.mem_append.1 hr with hr | hr
        · exact hrows r hr
        · rw [List.mem_singleton.1 hr]; exact hauto
      · rw [if_neg hw] at h
        cases h
        exact hrows
  | cons e rest ih =>
      intro rows auto out hrows hauto hin h
      cases e with
      | item c =>
          simp only [packLoop] at h
          rw [append_item_eq] at h
          by_cases hlen : auto._children.length + 1 > 5
          · rw [if_pos hlen] at h
            rw [ofComponents_eq] at h
            simp only [List.length_cons, List.length_nil, bind, Except.bind,
              if_pos (by omega : (1 : Nat) ≤ 5)] at h
            refine ih (rows ++ [auto]) ⟨[c]⟩ out ?_ ?_ ?_ h
            · intro r hr
              rcases List.mem_append.1 hr with hr | hr
              · exact hrows r hr
              · rw [List.mem_singleton.1 hr]; exact hauto
            · rw [UIActionRow.width_eq_length]; simp
            · intro r hr; exact hin r (List.mem_cons_of_mem _ hr)
          · rw [if_neg hlen] at h
            refine ih rows ⟨auto._children ++ [c]⟩ out hrows ?_ ?_ h
            · rw [UIActionRow.width_eq_length]; simp; omega
            · intro r hr; exact hin r (List.mem_cons_of_mem _ hr)
      | row r0 =>
          simp only [packLoop] at h
          have hr0 : r0.width ≤ 5 := hin r0 (List.mem_cons_self _ _)
          by_cases hw : auto.width > 0
          · rw [if_pos hw] at h
            refine ih (rows ++ [auto] ++ [r0]) {} out ?_ ?_ ?_ h
            · intro r hr
              rcases List.mem_append.1 hr with hr | hr
              · rcases List.mem_append.1 hr with hr | hr
                · exact hrows r hr
                · rw [List.mem_singleton.1 hr]; exact hauto
              · rw [List.mem_singleton.1 hr]; exact hr0
            · rw [UIActionRow.width_eq_length]; simp
            · intro r hr; exact hin r (List.mem_cons_of_mem _ hr)
          · rw [if_neg hw] at h
            refine ih (rows ++ [r0]) auto out ?_ hauto ?_ h
            · intro r hr
              rcases List.mem_append.1 hr with hr | hr
              · exact hrows r hr
              · rw [List.mem_singleton.1 hr]; exact hr0
            · intro r hr; exact hin r (List.mem_cons_of_mem _ hr)
      | seq l =>
          simp only [packLoop] at h
          rw [ofComponents_eq] at h
          by_cases hl : l.length ≤ 5
          · rw [if_pos hl] at h
            simp only [bind, Except.bind] at h
            have hbuilt : (⟨l⟩ : UIActionRow).width ≤ 5 := by
              rw [UIActionRow.width_eq_length]; exact hl
            by_cases hw : auto.width > 0
            · rw [if_pos hw, if_pos hw] at h
              refine ih (rows ++ [auto] ++ [⟨l⟩]) {} out ?_ ?_ ?_ h
              · intro r hr
                rcases List.mem_append.1 hr with hr | hr
                · rcases List.mem_append.1 hr with hr | hr
                  · exact hrows r hr
                  · rw [List.mem_singleton.1 hr]; exact hauto
                · rw [List.mem_singleton.1 hr]; exact hbuilt
              · rw [UIActionRow.width_eq_length]; simp
              · intro r hr; exact hin r (List.mem_cons_of_mem _ hr)
            · rw [if_neg hw, if_neg hw] at h
              refine ih (rows ++ [⟨l⟩]) auto out ?_ hauto ?_ h
              · intro r hr
                rcases List.mem_append.1 hr with hr | hr
                · exact hrows r hr
                · rw [List.mem_singleton.1 hr]; exact hbuilt
              · intro r hr; exact hin r (List.mem_cons_of_mem _ hr)
          · rw [if_neg hl] at h
            simp only [bind, Except.bind] at h
            cases h

/-- Claim C1: the claim `decode(encode(x)) == x` field-for-field for every
concrete variant value fails: a `Button` whose `label` is the empty
string is encoded with the falsy `label` omitted, so decoding yields
`label = None` instead of the original value. -/
theorem roundtrip_decode_encode_cex :
    _component_factory (Component.to_dict (.leaf (.button
        { style := 1, custom_id := "x", label := some "" }))) ≠
      .ok (.leaf (.button { style := 1, custom_id := "x", label := some "" })) := by
  decide

/-- Claim C1, amended: for every concrete component variant value `x` whose
optional string fields (`label`, `placeholder`, `description`, also
inside nested options and row children) are not the empty string and
whose `channel_types` is not the empty list, decoding its encoding gives
`x` back field-for-field; likewise `SelectOption.from_dict` after
`SelectOption.to_dict`. -/
theorem roundtrip_decode_encode_clean :
    (∀ c : Component, c.clean → _component_factory c.to_dict = .ok c) ∧
    (∀ o : SelectOption, o.clean → SelectOption.from_dict o.to_dict = .ok o) :=
  ⟨fun _ hc => component_factory_to_dict hc, fun _ ho => SelectOption.from_to ho⟩

theorem roundtrip_decode_encode_clean_witness :
    _component_factory (Component.to_dict (.actionRow
        [.button { style := 1, custom_id := "a" },
         .textInput { custom_id := "t", label := "L" }])) =
      .ok (.actionRow
        [.button { style := 1, custom_id := "a" },
         .textInput { custom_id := "t", label := "L" }]) ∧
    SelectOption.from_dict (SelectOption.to_dict { label := "l", value := "v" }) =
      .ok { label := "l", value := "v" } :=
  ⟨roundtrip_decode_encode_clean.1 _ (by decide),
   roundtrip_decode_encode_clean.2 _ (by decide)⟩

/-- Claim C2: every container produced by `components_to_rows` satisfies the
capacity invariant: if every pre-built row appearing in the input itself
respects the invariant (as any row built through the public `ActionRow`
methods does), then every row of the output has width at most 5. -/
theorem packing_capacity_invariant (entries : List Entry)
    (out : List UIActionRow)
    (hin : ∀ r, Entry.row r ∈ entries → r.width ≤ 5)
    (hok : components_to_rows entries = .ok out) :
    ∀ r ∈ out, r.width ≤ 5 :=
  packLoop_width entries [] {} out (fun r hr => absurd hr (List.not_mem_nil r))
    (by rw [UIActionRow.width_eq_length]; simp) hin hok

theorem packing_capacity_invariant_witness :
    UIActionRow.width { _children := [⟨0⟩] } ≤ 5 :=
  packing_capacity_invariant [.item ⟨0⟩] [{ _children := [⟨0⟩] }]
    (by intro r hr; simp at hr) (by decide) { _children := [⟨0⟩] } (by simp)

/-- Claim C3: the claim that for every valid known-tag wire object `w`,
`_component_factory(w).to_dict()` equals `w` with absent optional fields
staying absent, fails: a tag-2 payload without the optional `disabled`
key decodes fine, but the re-encoding materializes `disabled = false`
instead of leaving the key absent. -/
theorem wire_reencode_cex :
    _component_factory { type := 2, style := some 1, custom_id := some "x" } =
      .ok (.leaf (.button { style := 1, custom_id := "x" })) ∧
    Except.map Component.to_dict
        (_component_factory { type := 2, style := some 1, custom_id := some "x" }) ≠
      .ok { type := 2, style := some 1, custom_id := some "x" } ∧
    ({ type := 2, style := some 1, custom_id := some "x" } : WirePayload).disabled
      = none ∧
    (Component.to_dict (.leaf (.button { style := 1, custom_id := "x" }))).disabled
      = some false := by
  decide

/-- Claim C3, amended: re-encoding the decoded component reproduces `w`
exactly for every wire object `w` in the image of the encoder on clean
components, i.e. whenever the unconditionally re-emitted defaultable
keys (`disabled`, `min_values`, `max_values`, `required`, `default`,
`options`, `components`, the fixed `style` of url buttons) are present
in `w` and its falsy-omitted optional keys are absent or truthy; for a
`w` with an absent defaultable key the re-encoding instead materializes
the documented default. -/
theorem wire_reencode_of_encoded (w : WirePayload)
    (h : ∃ c : Component, c.clean ∧ c.to_dict = w) :
    Except.map Component.to_dict (_component_factory w) = .ok w := by
  obtain ⟨c, hc, rfl⟩ := h
  rw [component_factory_to_dict hc]
  rfl

theorem wire_reencode_of_encoded_witness :
    Except.map Component.to_dict
        (_component_factory { type := 4, style := some 1,
                              custom_id := some "t", label := some "L",
                              required := some true }) =
      .ok { type := 4, style := some 1, custom_id := some "t",
            label := some "L", required := some true } :=
  wire_reencode_of_encoded _
    ⟨.leaf (.textInput { custom_id := "t", label := "L" }), by decide, rfl⟩

/-- Claim C4: the component factory sends every tag-2 wire object without a
`url` key to `Button.from_payload` and every tag-2 wire object with a
`url` key to `UrlButton.from_payload`, and fails with an unknown-tag
error on every wire object whose tag lies outside 1-8 instead of
silently producing a value. -/
theorem factory_dispatch_unknown_tag :
    (∀ d : WirePayload, d.type = 2 → d.url = none →
        _component_factory d =
          (Button.from_payload d.toLeafPayload).map
            (fun b => Component.leaf (.button b))) ∧
    (∀ d : WirePayload, d.type = 2 → d.url ≠ none →
        _component_factory d =
          (UrlButton.from_payload d.toLeafPayload).map
            (fun b => Component.leaf (.urlButton b))) ∧
    (∀ d : WirePayload, d.type ∉ ([1, 2, 3, 4, 5, 6, 7, 8] : List Nat) →
        _component_factory d = .error (.unknownComponentType d.type)) := by
  refine ⟨fun d h2 hu => ?_, fun d h2 hu => ?_, fun d hmem => ?_⟩
  · simp only [_component_factory, leafComponentFactory, h2, hu, Option.isSome_none]
    norm_num
    cases Button.from_payload d.toLeafPayload <;> simp [Except.map]
  · have hs : d.url.isSome := Option.isSome_iff_ne_none.2 hu
    simp only [_component_factory, leafComponentFactory, h2, hs]
    norm_num
    cases UrlButton.from_payload d.toLeafPayload <;> simp [Except.map]
  · simp only [List.mem_cons, List.not_mem_nil, or_false] at hmem
    push_neg at hmem
    obtain ⟨h1, h2, h3, h4, h5, h6, h7, h8⟩ := hmem
    simp [_component_factory, leafComponentFactory, h1, h2, h3, h4, h5, h6, h7,
      h8, Except.map]

theorem factory_dispatch_unknown_tag_witness :
    _component_factory { type := 2, style := some 1, custom_id := some "b" } =
      (Button.from_payload
          ({ type := 2, style := some 1, custom_id := some "b" } :
            WirePayload).toLeafPayload).map
        (fun b => Component.leaf (.button b)) ∧
    _component_factory { type := 2, style := some 5, url := some "u" } =
      (UrlButton.from_payload
          ({ type := 2, style := some 5, url := some "u" } :
            WirePayload).toLeafPayload).map
        (fun b => Component.leaf (.urlButton b)) ∧
    _component_factory { type := 99 } = .error (.unknownComponentType 99) :=
  ⟨factory_dispatch_unknown_tag.1 _ rfl rfl,
   factory_dispatch_unknown_tag.2.1 _ rfl (by simp),
   factory_dispatch_unknown_tag.2.2 { type := 99 } (by decide)⟩

/-- Claim C5: `components_to_rows` is deterministic (a pure function of its
input) and order-preserving: when it succeeds, the concatenation of all
output containers' children, in order, equals the flattening of the
input in order. -/
theorem packing_deterministic_order_preserving (entries : List Entry)
    (out : List UIActionRow)
    (hok : components_to_rows entries = .ok out) :
    components_to_rows entries = components_to_rows entries ∧
    flattenRows out = flattenInput entries := by
  refine ⟨rfl, ?_⟩
  have h := packLoop_flatten entries [] {} out hok
  simpa using h

theorem packing_deterministic_order_preserving_witness :
    components_to_rows [.item ⟨0⟩, .row { _children := [⟨1⟩, ⟨2⟩] }, .item ⟨3⟩] =
      components_to_rows [.item ⟨0⟩, .row { _children := [⟨1⟩, ⟨2⟩] }, .item ⟨3⟩] ∧
    flattenRows [{ _children := [⟨0⟩] }, { _children := [⟨1⟩, ⟨2⟩] },
        { _children := [⟨3⟩] }] =
      flattenInput [.item ⟨0⟩, .row { _children := [⟨1⟩, ⟨2⟩] }, .item ⟨3⟩] :=
  packing_deterministic_order_preserving _ _ (by decide)

/-- Claim C6: an explicit container in the input is never merged into the
running auto-fill row even when that row has spare width: on
`[item, item, explicit row of 2, item]` the non-empty auto row of 2 is
sealed first, the explicit row passes through unchanged, and a fresh
auto row holds the final item. -/
theorem packing_explicit_group_seals_auto_row (a b c1 c2 d : Item) :
    components_to_rows
        [.item a, .item b, .row { _children := [c1, c2] }, .item d] =
      .ok [{ _children := [a, b] }, { _children := [c1, c2] },
           { _children := [d] }] := rfl

/-- Claim C7: overflowing on a single plain item seals the auto row and opens
a fresh one (six one-width items give containers of 5 and 1, with no
error), while an explicit literal group of six items raises the
capacity `ValueError`. -/
theorem packing_single_overflow_vs_explicit_group (a1 a2 a3 a4 a5 a6 : Item) :
    components_to_rows
        [.item a1, .item a2, .item a3, .item a4, .item a5, .item a6] =
      .ok [{ _children := [a1, a2, a3, a4, a5] }, { _children := [a6] }] ∧
    components_to_rows [.seq [a1, a2, a3, a4, a5, a6]] =
      .error (.valueError tooManyMsg) :=
  ⟨rfl, rfl⟩

/-- Claim C8: decoding a select-menu payload lacking `min_values`,
`max_values` or `disabled` succeeds with the defaults 1, 1 and false,
and decoding a text-input payload lacking `required` succeeds with
`required = true`: an absent optional field never raises, it produces
the documented default. -/
theorem decode_absent_optional_defaults :
    (∀ (p : LeafPayload) (cid : String), p.custom_id = some cid →
        p.min_values = none → p.max_values = none → p.disabled = none →
        BaseSelectMenu.from_payload p =
          .ok { custom_id := cid, placeholder := p.placeholder,
                min_values := 1, max_values := 1, disabled := false }) ∧
    (∀ (p : LeafPayload) (cid lbl : String), p.custom_id = some cid →
        p.label = some lbl → p.required = none →
        TextInput.from_payload p =
          .ok { custom_id := cid, style := p.style.getD 1, label := lbl,
                placeholder := p.placeholder, value := p.value,
                required := true, min_length := p.min_length,
                max_length := p.max_length }) := by
  constructor
  · intro p cid hcid hmin hmax hdis
    simp [BaseSelectMenu.from_payload, reqField, hcid, hmin, hmax, hdis, bind,
      Except.bind, pure, Except.pure]
  · intro p cid lbl hcid hlbl hreq
    simp [TextInput.from_payload, reqField, hcid, hlbl, hreq, bind,
      Except.bind, pure, Except.pure]

theorem decode_absent_optional_defaults_witness :
    BaseSelectMenu.from_payload { type := 5, custom_id := some "s" } =
      .ok { custom_id := "s", placeholder := none, min_values := 1,
            max_values := 1, disabled := false } ∧
    TextInput.from_payload { type := 4, custom_id := some "t",
                             label := some "L" } =
      .ok { custom_id := "t", style := 1, label := "L", placeholder := none,
            value := none, required := true, min_length := none,
            max_length := none } :=
  ⟨decode_absent_optional_defaults.1 _ "s" rfl rfl rfl rfl,
   decode_absent_optional_defaults.2 _ "t" "L" rfl rfl rfl⟩

/-- Claim C9: the claim that two `SelectOption` instances with equal fields
compare equal under `==` fails: the class defines no `__eq__`, so two
distinct instances with identical `label`, `value`, `description`,
`emoji` and `default` compare unequal. -/
theorem selectoption_field_equality_cex :
    selectOptionPyEq
        { object_id := 0, fields := { label := "a", value := "a" } }
        { object_id := 1, fields := { label := "a", value := "a" } } = false ∧
    ({ object_id := 0, fields := { label := "a", value := "a" } }
        : SelectOptionInstance).fields =
      ({ object_id := 1, fields := { label := "a", value := "a" } }
        : SelectOptionInstance).fields := by
  decide

/-- Claim C9, amended: `SelectOption` equality under `==` is identity-based:
two instances compare equal exactly when they are the same object,
regardless of their field values. -/
theorem selectoption_equality_is_identity (a b : SelectOptionInstance) :
    selectOptionPyEq a b = true ↔ a.object_id = b.object_id := by
  simp [selectOptionPyEq]

/-- Claim C10: inserting (and hence appending) an item whose width added to
the row's current width exceeds 5 raises the capacity `ValueError`, and
the row's children are untouched: the check precedes the mutation, so
the post-call state equals the pre-call state. -/
theorem insert_item_capacity_error (r : UIActionRow) (index : Nat)
    (item : Item) (h : r.width + item.width > 5) :
    r.insert_item index item = .error (.valueError tooManyMsg) ∧
    r.append_item item = .error (.valueError tooManyMsg) ∧
    r.insert_item_run index item = r := by
  have hi : r.insert_item index item = .error (.valueError tooManyMsg) := by
    simp [UIActionRow.insert_item, tooManyMsg, h]
  refine ⟨hi, ?_, ?_⟩
  · simp [UIActionRow.append_item, UIActionRow.insert_item, tooManyMsg, h]
  · simp [UIActionRow.insert_item_run, hi]

theorem insert_item_capacity_error_witness :
    UIActionRow.insert_item { _children := [⟨0⟩, ⟨1⟩, ⟨2⟩, ⟨3⟩, ⟨4⟩] } 0 ⟨5⟩ =
      .error (.valueError tooManyMsg) ∧
    UIActionRow.append_item { _children := [⟨0⟩, ⟨1⟩, ⟨2⟩, ⟨3⟩, ⟨4⟩] } ⟨5⟩ =
      .error (.valueError tooManyMsg) ∧
    UIActionRow.insert_item_run { _children := [⟨0⟩, ⟨1⟩, ⟨2⟩, ⟨3⟩, ⟨4⟩] } 0 ⟨5⟩ =
      { _children := [⟨0⟩, ⟨1⟩, ⟨2⟩, ⟨3⟩, ⟨4⟩] } :=
  insert_item_capacity_error _ 0 ⟨5⟩ (by decide)
